import Mathlib

/-!
Shallow embedding of `src/raspberry_camera.py` (Raspberry Pi camera streaming
client) and verification of its streaming-loop behaviour.

The program is a single control loop (function `main`, lines 21-165):
it periodically polls `GET {server}/api/status` for the currently active
camera id, and, while active, captures frames, encodes them, and uploads
them with `POST {server}/receive_camera_frame`.

Modelling decisions:
- Wall-clock time (`time.time()`) is modelled as `ℚ`.
- A network request's outcome is either `exception` (a raised
  timeout / connection error, and likewise a JSON-decode failure, since
  both end up in the corresponding `except` handler) or `response code body`
  where `body` is the parsed JSON object, modelled as an association list
  of fields.
- Camera capture, colour conversion, JPEG and base64 encoding are opaque
  effects; the model records whether they happen (`captured`), not the
  pixel data, which no claim touches.
- Sleeps are recorded as the amount slept (`sleep` field), since the claims
  talk about their durations (0.1 s idle, 1 ms pacing tick, 1.0 s backoff).
- The loop body is a pure function from the loop state, the current time,
  and the two potential network outcomes of the iteration to the next
  state plus a record of the observable actions of that iteration.
  Totality of this function models the loop absorbing network errors
  without crashing.
-/

namespace RaspberryCamera

/-- A parsed JSON value, as Python's `response.json()` returns it. -/
inductive JsonValue where
  | null : JsonValue
  | bool : Bool → JsonValue
  | num : ℚ → JsonValue
  | str : String → JsonValue
  | arr : List JsonValue → JsonValue
  | obj : List (String × JsonValue) → JsonValue

/-- Field lookup in a parsed JSON object: Python's `d[k]` guarded by
`'k' in d` (lines 80, 142). Returns `none` when the key is absent. -/
def lookupField (body : List (String × JsonValue)) (k : String) : Option JsonValue :=
  match body with
  | [] => none
  | (k', v) :: rest => if k' = k then some v else lookupField rest k

/-- Python truthiness of a JSON value, as used by `not resp_data['is_active']`
(line 142). -/
def truthy : JsonValue → Bool
  | .null => false
  | .bool b => b
  | .num q => decide (q ≠ 0)
  | .str s => decide (s ≠ "")
  | .arr xs => !xs.isEmpty
  | .obj fs => !fs.isEmpty

/-- Python equality `v == s` between a JSON value and a string, as used by
`status_data['current_source'] == camera_id` (line 83): only a string with
the same characters compares equal. -/
def pyEqStr (v : JsonValue) (s : String) : Bool :=
  match v with
  | .str s' => decide (s' = s)
  | _ => false

/-- Outcome of one HTTP request (`requests.get` line 77 / `requests.post`
line 128): either a raised exception (timeout, connection error, or a
JSON-decode failure on the received body), or a response with a status
code and a parsed JSON-object body. -/
inductive HttpOutcome where
  | exception : HttpOutcome
  | response : ℕ → List (String × JsonValue) → HttpOutcome

/-- The command-line configuration the loop reads (lines 24-48).
`width`, `height` and `quality` only parametrise the opaque
capture/encode effects; `server` only fixes the URLs. -/
structure Config where
  camera_id : String
  fps : ℕ
  width : ℕ
  height : ℕ
  quality : ℕ

/-- `frame_interval = 1.0 / args.fps` (line 61). -/
def Config.frame_interval (cfg : Config) : ℚ :=
  1 / (cfg.fps : ℚ)

/-- The mutable loop-local state (lines 65-69). -/
structure LoopState where
  is_active : Bool
  last_frame_time : ℚ
  last_status_check : ℚ
  status_check_interval : ℚ
  frame_count : ℕ

/-- State at loop entry (lines 65-69): inactive, both timers anchored at
their own `time.time()` call, `status_check_interval = 1.0`, no frames. -/
def initialState (t0 t1 : ℚ) : LoopState :=
  { is_active := false
    last_frame_time := t0
    last_status_check := t1
    status_check_interval := 1
    frame_count := 0 }

/-- One status-poll attempt (the `try`/`except` at lines 76-99), given the
outcome of the GET. On an exception only `last_status_check` is reset
(lines 97-99). On any response, `is_active` is updated when the code is
200 and the body carries `current_source` (lines 78-83), then
`last_status_check` is reset and `status_check_interval` is re-evaluated
from the new activation state (lines 92-95). -/
def pollAttempt (cfg : Config) (s : LoopState) (t : ℚ) (r : HttpOutcome) : LoopState :=
  match r with
  | .exception =>
      { s with last_status_check := t }
  | .response code body =>
      let active :=
        if code = 200 then
          match lookupField body "current_source" with
          | some v => pyEqStr v cfg.camera_id
          | none => s.is_active
        else s.is_active
      { s with
          is_active := active
          last_status_check := t
          status_check_interval := if active then 3 else 1/2 }

/-- The poll guard (line 75): the poll is attempted only when at least
`status_check_interval` has elapsed since `last_status_check`. Returns the
state after the (possible) poll and whether a GET was issued. -/
def pollPhase (cfg : Config) (s : LoopState) (t : ℚ) (r : HttpOutcome) : LoopState × Bool :=
  if s.status_check_interval ≤ t - s.last_status_check
  then (pollAttempt cfg s t r, true)
  else (s, false)

/-- Result of handling one upload attempt (lines 126-153): the state
afterwards, the extra backoff sleep, and which log lines were emitted. -/
structure UploadResult where
  state : LoopState
  extraSleep : ℚ
  errorLogged : Bool
  warnLogged : Bool
  deactLogged : Bool

/-- Handling of the POST outcome (lines 137-153). On HTTP 200 the frame
counter is incremented and, if the body carries a falsy `is_active`,
activation is revoked (lines 137-144). On a non-200 code only a warning is
logged (lines 148-149). On a raised exception an error is logged and an
extra 1.0 s sleep is taken (lines 151-153). -/
def uploadHandle (s : LoopState) (r : HttpOutcome) : UploadResult :=
  match r with
  | .exception =>
      { state := s, extraSleep := 1
        errorLogged := true, warnLogged := false, deactLogged := false }
  | .response code body =>
      if code = 200 then
        let s1 := { s with frame_count := s.frame_count + 1 }
        match lookupField body "is_active" with
        | some v =>
            if truthy v then
              { state := s1, extraSleep := 0
                errorLogged := false, warnLogged := false, deactLogged := false }
            else
              { state := { s1 with is_active := false }, extraSleep := 0
                errorLogged := false, warnLogged := false, deactLogged := true }
        | none =>
            { state := s1, extraSleep := 0
              errorLogged := false, warnLogged := false, deactLogged := false }
      else
        { state := s, extraSleep := 0
          errorLogged := false, warnLogged := true, deactLogged := false }

/-- Observable outcome of one iteration of the `while True` loop. -/
structure IterResult where
  state : LoopState
  polled : Bool
  captured : Bool
  uploaded : Bool
  sleep : ℚ
  uploadErrorLogged : Bool

/-- One iteration of the streaming loop (lines 71-156) at wall-clock time
`t = time.time()`, given the outcome `pollR` the GET would have and the
outcome `uploadR` the POST would have. Order of the body: poll guard and
poll (75-99), activation gate with 0.1 s idle sleep (102-104), pacing gate
with 1 ms tick (106-111), capture/encode (114-124), upload and its
handling (126-153), `last_frame_time` update (156). -/
def loopIter (cfg : Config) (s : LoopState) (t : ℚ) (pollR uploadR : HttpOutcome) :
    IterResult :=
  let pp := pollPhase cfg s t pollR
  let s1 := pp.1
  if s1.is_active = false then
    { state := s1, polled := pp.2, captured := false, uploaded := false
      sleep := 1/10, uploadErrorLogged := false }
  else if t - s1.last_frame_time < cfg.frame_interval then
    { state := s1, polled := pp.2, captured := false, uploaded := false
      sleep := 1/1000, uploadErrorLogged := false }
  else
    let ur := uploadHandle s1 uploadR
    { state := { ur.state with last_frame_time := t }
      polled := pp.2, captured := true, uploaded := true
      sleep := ur.extraSleep, uploadErrorLogged := ur.errorLogged }

/-- A run of the loop over a list of iteration inputs
(time, GET outcome, POST outcome), collecting each iteration's time and
result. -/
def runTrace (cfg : Config) : LoopState → List (ℚ × HttpOutcome × HttpOutcome) →
    List (ℚ × IterResult)
  | _, [] => []
  | s, (t, p, u) :: rest =>
      let r := loopIter cfg s t p u
      (t, r) :: runTrace cfg r.state rest

/-- The wall-clock times of the iterations of a trace that captured a
frame. -/
def captureTimes (trace : List (ℚ × IterResult)) : List ℚ :=
  (trace.filter fun x => x.2.captured).map Prod.fst

/-- How `main` can leave the streaming loop (lines 158-161): a
`KeyboardInterrupt` or any other unhandled exception. -/
inductive ExitCause where
  | keyboardInterrupt : ExitCause
  | otherException : ExitCause

/-- What the termination path performs (lines 158-165). -/
structure ShutdownResult where
  interruptLogged : Bool
  errorLogged : Bool
  cameraStopped : Bool
  shutdownLogged : Bool

/-- The `except`/`finally` structure of `main` (lines 158-165): whichever
way the loop exits, the `finally` block runs, stopping the camera when
`picam` was initialised (the `picam in locals()` test, line 163) and
logging the shutdown message (line 165). -/
def mainExit (picamInitialized : Bool) (c : ExitCause) : ShutdownResult :=
  match c with
  | .keyboardInterrupt =>
      { interruptLogged := true, errorLogged := false
        cameraStopped := picamInitialized, shutdownLogged := true }
  | .otherException =>
      { interruptLogged := false, errorLogged := true
        cameraStopped := picamInitialized, shutdownLogged := true }

/-! ### Concrete sample data, used by the closed witness theorems -/

/-- A sample configuration: the default command-line values
(lines 24-35). -/
def sampleConfig : Config :=
  { camera_id := "camera_0", fps := 12, width := 640, height := 480, quality := 70 }

/-- The state at loop entry with both timers anchored at time 0. -/
def idleState : LoopState := initialState 0 0

/-- A sample state in which the camera is active and a frame is due. -/
def activeState : LoopState :=
  { is_active := true
    last_frame_time := 0
    last_status_check := 0
    status_check_interval := 3
    frame_count := 0 }

/-! ### Basic lemmas about the loop body -/

theorem pollAttempt_last_frame_time (cfg : Config) (s : LoopState) (t : ℚ)
    (r : HttpOutcome) :
    (pollAttempt cfg s t r).last_frame_time = s.last_frame_time := by
  cases r <;> rfl

theorem pollAttempt_frame_count (cfg : Config) (s : LoopState) (t : ℚ)
    (r : HttpOutcome) :
    (pollAttempt cfg s t r).frame_count = s.frame_count := by
  cases r <;> rfl

theorem pollPhase_last_frame_time (cfg : Config) (s : LoopState) (t : ℚ)
    (r : HttpOutcome) :
    (pollPhase cfg s t r).1.last_frame_time = s.last_frame_time := by
  unfold pollPhase
  split <;> simp [pollAttempt_last_frame_time]

theorem uploadHandle_last_frame_time (s : LoopState) (r : HttpOutcome) :
    (uploadHandle s r).state.last_frame_time = s.last_frame_time := by
  cases r with
  | exception => rfl
  | response code body =>
    simp only [uploadHandle]
    split
    · split
      · split <;> rfl
      · rfl
    · rfl

theorem uploadHandle_status_check_interval (s : LoopState) (r : HttpOutcome) :
    (uploadHandle s r).state.status_check_interval = s.status_check_interval := by
  cases r with
  | exception => rfl
  | response code body =>
    simp only [uploadHandle]
    split
    · split
      · split <;> rfl
      · rfl
    · rfl

/-- The upload-response handler can only revoke activation, never grant
it: if the state is active after `uploadHandle`, it was active before. -/
theorem uploadHandle_deactivate_only (s : LoopState) (r : HttpOutcome)
    (h : (uploadHandle s r).state.is_active = true) : s.is_active = true := by
  cases r with
  | exception => exact h
  | response code body =>
    simp only [uploadHandle] at h
    split at h
    · split at h
      · split at h
        · exact h
        · simp at h
      · exact h
    · exact h

/-- Branch lemma: when the post-poll state is inactive, the iteration only
idles for 0.1 s. -/
theorem loopIter_not_active (cfg : Config) (s : LoopState) (t : ℚ)
    (p u : HttpOutcome) (h : (pollPhase cfg s t p).1.is_active = false) :
    loopIter cfg s t p u =
      { state := (pollPhase cfg s t p).1, polled := (pollPhase cfg s t p).2
        captured := false, uploaded := false
        sleep := 1/10, uploadErrorLogged := false } := by
  simp [loopIter, h]

/-- Branch lemma: when active but the frame interval has not yet elapsed,
the iteration only sleeps the 1 ms pacing tick. -/
theorem loopIter_pacing (cfg : Config) (s : LoopState) (t : ℚ)
    (p u : HttpOutcome) (h : (pollPhase cfg s t p).1.is_active = true)
    (h2 : t - (pollPhase cfg s t p).1.last_frame_time < cfg.frame_interval) :
    loopIter cfg s t p u =
      { state := (pollPhase cfg s t p).1, polled := (pollPhase cfg s t p).2
        captured := false, uploaded := false
        sleep := 1/1000, uploadErrorLogged := false } := by
  simp [loopIter, h, h2]

/-- Branch lemma: when active and a frame is due, the iteration captures,
uploads, handles the response, and re-anchors `last_frame_time`. -/
theorem loopIter_capture (cfg : Config) (s : LoopState) (t : ℚ)
    (p u : HttpOutcome) (h : (pollPhase cfg s t p).1.is_active = true)
    (h2 : cfg.frame_interval ≤ t - (pollPhase cfg s t p).1.last_frame_time) :
    loopIter cfg s t p u =
      { state := { (uploadHandle (pollPhase cfg s t p).1 u).state with last_frame_time := t }
        polled := (pollPhase cfg s t p).2, captured := true, uploaded := true
        sleep := (uploadHandle (pollPhase cfg s t p).1 u).extraSleep
        uploadErrorLogged := (uploadHandle (pollPhase cfg s t p).1 u).errorLogged } := by
  simp [loopIter, h, not_lt.mpr h2]

/-- A frame is captured in an iteration precisely when the post-poll state
is active and at least `frame_interval` has elapsed since
`last_frame_time`. -/
theorem captured_iff (cfg : Config) (s : LoopState) (t : ℚ) (p u : HttpOutcome) :
    (loopIter cfg s t p u).captured = true ↔
      (pollPhase cfg s t p).1.is_active = true
        ∧ cfg.frame_interval ≤ t - (pollPhase cfg s t p).1.last_frame_time := by
  by_cases h : (pollPhase cfg s t p).1.is_active = false
  · rw [loopIter_not_active cfg s t p u h]
    simp [h]
  · have h' : (pollPhase cfg s t p).1.is_active = true := by
      simpa using h
    by_cases h2 : t - (pollPhase cfg s t p).1.last_frame_time < cfg.frame_interval
    · rw [loopIter_pacing cfg s t p u h' h2]
      simp [not_le.mpr h2]
    · rw [loopIter_capture cfg s t p u h' (not_lt.mp h2)]
      simp [h', not_lt.mp h2]

/-- The iteration reports a poll exactly when the poll guard fired,
whichever branch the rest of the body takes. -/
theorem loopIter_polled (cfg : Config) (s : LoopState) (t : ℚ)
    (p u : HttpOutcome) :
    (loopIter cfg s t p u).polled = (pollPhase cfg s t p).2 := by
  simp only [loopIter]
  split
  · rfl
  · split <;> rfl

/-- Python string comparison characterised: `v == s` is `True` exactly for
the JSON string with the same characters. -/
theorem pyEqStr_eq_true (v : JsonValue) (s : String) :
    pyEqStr v s = true ↔ v = JsonValue.str s := by
  cases v <;> simp [pyEqStr]

/-- If a poll attempt turns an inactive client active, it was a 200
response whose `current_source` field is exactly this camera's id. -/
theorem pollAttempt_activates (cfg : Config) (s : LoopState) (t : ℚ)
    (r : HttpOutcome) (hs : s.is_active = false)
    (h : (pollAttempt cfg s t r).is_active = true) :
    ∃ body, r = HttpOutcome.response 200 body
      ∧ lookupField body "current_source" = some (JsonValue.str cfg.camera_id) := by
  cases r with
  | exception =>
    rw [show (pollAttempt cfg s t HttpOutcome.exception).is_active = s.is_active from rfl,
      hs] at h
    exact absurd h (by simp)
  | response code body =>
    simp only [pollAttempt] at h
    by_cases hc : code = 200
    · subst hc
      simp only [if_pos rfl] at h
      cases hl : lookupField body "current_source" with
      | none =>
        rw [hl] at h
        rw [hs] at h
        exact absurd h (by simp)
      | some v =>
        rw [hl] at h
        have hv := (pyEqStr_eq_true v cfg.camera_id).mp h
        exact ⟨body, rfl, hv ▸ hl⟩
    · rw [if_neg hc] at h
      rw [hs] at h
      exact absurd h (by simp)

/-- A captured frame is at least `frame_interval` after the previous
anchor, and re-anchors `last_frame_time` to the capture time. -/
theorem captured_spacing (cfg : Config) (s : LoopState) (t : ℚ)
    (p u : HttpOutcome) (h : (loopIter cfg s t p u).captured = true) :
    s.last_frame_time + cfg.frame_interval ≤ t
      ∧ (loopIter cfg s t p u).state.last_frame_time = t := by
  obtain ⟨h1, h2⟩ := (captured_iff cfg s t p u).mp h
  constructor
  · rw [pollPhase_last_frame_time] at h2
    linarith
  · rw [loopIter_capture cfg s t p u h1 h2]

/-- An iteration that does not capture leaves `last_frame_time`
unchanged. -/
theorem not_captured_last_frame_time (cfg : Config) (s : LoopState) (t : ℚ)
    (p u : HttpOutcome) (h : (loopIter cfg s t p u).captured = false) :
    (loopIter cfg s t p u).state.last_frame_time = s.last_frame_time := by
  by_cases h1 : (pollPhase cfg s t p).1.is_active = false
  · rw [loopIter_not_active cfg s t p u h1]
    exact pollPhase_last_frame_time cfg s t p
  · have h1' : (pollPhase cfg s t p).1.is_active = true := by simpa using h1
    by_cases h2 : t - (pollPhase cfg s t p).1.last_frame_time < cfg.frame_interval
    · rw [loopIter_pacing cfg s t p u h1' h2]
      exact pollPhase_last_frame_time cfg s t p
    · exact absurd ((captured_iff cfg s t p u).mpr ⟨h1', not_lt.mp h2⟩)
        (by simp [h])

theorem captureTimes_nil : captureTimes [] = [] := rfl

theorem captureTimes_cons (cfg : Config) (s : LoopState) (t : ℚ)
    (p u : HttpOutcome) (rest : List (ℚ × HttpOutcome × HttpOutcome)) :
    captureTimes (runTrace cfg s ((t, p, u) :: rest)) =
      if (loopIter cfg s t p u).captured
      then t :: captureTimes (runTrace cfg (loopIter cfg s t p u).state rest)
      else captureTimes (runTrace cfg (loopIter cfg s t p u).state rest) := by
  simp only [runTrace, captureTimes, List.filter_cons]
  split <;> simp

/-- Main spacing invariant: over any run, consecutive capture times are at
least `frame_interval` apart, and the first capture is at least
`frame_interval` after the starting `last_frame_time`. -/
theorem captureTimes_chain (cfg : Config)
    (inputs : List (ℚ × HttpOutcome × HttpOutcome)) :
    ∀ s : LoopState,
      List.Chain' (fun a b => a + cfg.frame_interval ≤ b)
        (captureTimes (runTrace cfg s inputs))
      ∧ ∀ t0 ∈ (captureTimes (runTrace cfg s inputs)).head?,
          s.last_frame_time + cfg.frame_interval ≤ t0 := by
  induction inputs with
  | nil => intro s; simp [runTrace, captureTimes]
  | cons x rest ih =>
    intro s
    obtain ⟨t, p, u⟩ := x
    rw [captureTimes_cons]
    obtain ⟨ihchain, ihhead⟩ := ih (loopIter cfg s t p u).state
    by_cases hc : (loopIter cfg s t p u).captured = true
    · obtain ⟨hsp, hlft⟩ := captured_spacing cfg s t p u hc
      rw [if_pos hc]
      constructor
      · rw [List.chain'_cons']
        refine ⟨fun b hb => ?_, ihchain⟩
        have hb' := ihhead b hb
        rw [hlft] at hb'
        exact hb'
      · intro t0 ht0
        simp only [List.head?_cons, Option.mem_def, Option.some.injEq] at ht0
        subst ht0
        exact hsp
    · have hc' : (loopIter cfg s t p u).captured = false := by simpa using hc
      have hlft := not_captured_last_frame_time cfg s t p u hc'
      rw [if_neg hc]
      refine ⟨ihchain, fun t0 ht0 => ?_⟩
      have := ihhead t0 ht0
      rw [hlft] at this
      exact this

/-! ### Claims -/

/-- Claim C1: in any iteration whose post-poll activation state is
inactive, no frame is captured or encoded and no frame-upload POST is
issued; capture/upload happens only while `is_active` is true. -/
theorem c1_no_capture_or_upload_when_inactive (cfg : Config) (s : LoopState)
    (t : ℚ) (p u : HttpOutcome)
    (h : (pollPhase cfg s t p).1.is_active = false) :
    (loopIter cfg s t p u).captured = false
      ∧ (loopIter cfg s t p u).uploaded = false := by
  rw [loopIter_not_active cfg s t p u h]
  exact ⟨rfl, rfl⟩

/-- Witness for C1: at loop entry (inactive, no poll due) the iteration
neither captures nor uploads. -/
theorem c1_witness :
    (pollPhase sampleConfig idleState (1/4) HttpOutcome.exception).1.is_active = false
    ∧ ((loopIter sampleConfig idleState (1/4) HttpOutcome.exception
          HttpOutcome.exception).captured = false
      ∧ (loopIter sampleConfig idleState (1/4) HttpOutcome.exception
          HttpOutcome.exception).uploaded = false) :=
  ⟨by norm_num [pollPhase, idleState, initialState],
   c1_no_capture_or_upload_when_inactive sampleConfig idleState (1/4)
     HttpOutcome.exception HttpOutcome.exception
     (by norm_num [pollPhase, idleState, initialState])⟩

/-- Claim C2 counterexample: the claim that `status_check_interval` always
equals 0.5 s while inactive and is re-evaluated after every poll attempt
fails on the code. At loop entry the interval is 1.0 (line 69) although
the client is inactive, and a poll attempt that raises does not
re-evaluate the interval (the `except` handler, lines 97-99, resets only
`last_status_check`): after the failed poll attempt at time 2 the client
is still inactive with interval 1.0, not 0.5. -/
theorem c2_counterexample :
    ((loopIter sampleConfig idleState (1/4) HttpOutcome.exception
          HttpOutcome.exception).state.is_active = false
      ∧ (loopIter sampleConfig idleState (1/4) HttpOutcome.exception
          HttpOutcome.exception).state.status_check_interval ≠ 1/2)
    ∧ ((loopIter sampleConfig idleState 2 HttpOutcome.exception
          HttpOutcome.exception).polled = true
      ∧ (loopIter sampleConfig idleState 2 HttpOutcome.exception
          HttpOutcome.exception).state.is_active = false
      ∧ (loopIter sampleConfig idleState 2 HttpOutcome.exception
          HttpOutcome.exception).state.status_check_interval ≠ 1/2) := by
  constructor
  · norm_num [loopIter, pollPhase, idleState, initialState]
  · norm_num [loopIter, pollPhase, pollAttempt, idleState, initialState]

/-- Claim C2 as amended: `status_check_interval` starts at 1.0 and is
re-evaluated only by poll attempts that complete without raising: after
any poll response (200 or not) it equals 3.0 exactly when the client is
then active and 0.5 exactly when inactive; a poll attempt that raises
leaves it unchanged, as does upload handling. -/
theorem c2_interval_amended (cfg : Config) (s : LoopState) (t t0 t1 : ℚ)
    (code : ℕ) (body : List (String × JsonValue)) (u : HttpOutcome) :
    (initialState t0 t1).status_check_interval = 1
    ∧ ((pollAttempt cfg s t (HttpOutcome.response code body)).status_check_interval
        = if (pollAttempt cfg s t (HttpOutcome.response code body)).is_active
          then 3 else 1/2)
    ∧ (pollAttempt cfg s t HttpOutcome.exception).status_check_interval
        = s.status_check_interval
    ∧ (uploadHandle s u).state.status_check_interval = s.status_check_interval :=
  ⟨rfl, rfl, rfl, uploadHandle_status_check_interval s u⟩

/-- Claim C3: a status poll answered 200 with a `current_source` field
sets `is_active` to the Python comparison of that field with the
configured camera id — true exactly when it is the string equal to the
id, false for every other JSON value; a non-200 response or a raised
exception leaves `is_active` unchanged. -/
theorem c3_poll_sets_activation (cfg : Config) (s : LoopState) (t : ℚ)
    (body : List (String × JsonValue)) (v : JsonValue) (code : ℕ)
    (hv : lookupField body "current_source" = some v) (hc : code ≠ 200) :
    (pollAttempt cfg s t (HttpOutcome.response 200 body)).is_active
        = pyEqStr v cfg.camera_id
    ∧ (pyEqStr v cfg.camera_id = true ↔ v = JsonValue.str cfg.camera_id)
    ∧ (pollAttempt cfg s t (HttpOutcome.response code body)).is_active
        = s.is_active
    ∧ (pollAttempt cfg s t HttpOutcome.exception).is_active = s.is_active := by
  refine ⟨?_, pyEqStr_eq_true v cfg.camera_id, ?_, rfl⟩
  · simp [pollAttempt, hv]
  · simp [pollAttempt, hc]

/-- Witness for C3: a 200 poll naming this camera activates it; a 404
poll and a raised poll leave the state alone. -/
theorem c3_witness :
    lookupField [("current_source", JsonValue.str "camera_0")] "current_source"
        = some (JsonValue.str "camera_0")
    ∧ (404 : ℕ) ≠ 200
    ∧ ((pollAttempt sampleConfig idleState 5
          (HttpOutcome.response 200 [("current_source", JsonValue.str "camera_0")])).is_active
          = pyEqStr (JsonValue.str "camera_0") sampleConfig.camera_id
      ∧ (pyEqStr (JsonValue.str "camera_0") sampleConfig.camera_id = true
          ↔ JsonValue.str "camera_0" = JsonValue.str sampleConfig.camera_id)
      ∧ (pollAttempt sampleConfig idleState 5
          (HttpOutcome.response 404 [("current_source", JsonValue.str "camera_0")])).is_active
          = idleState.is_active
      ∧ (pollAttempt sampleConfig idleState 5 HttpOutcome.exception).is_active
          = idleState.is_active) :=
  ⟨rfl, by norm_num,
   c3_poll_sets_activation sampleConfig idleState 5
     [("current_source", JsonValue.str "camera_0")] (JsonValue.str "camera_0")
     404 rfl (by norm_num)⟩

/-- Claim C4: an upload answered 200 whose JSON carries `is_active: false`
revokes the local activation state within that same iteration. -/
theorem c4_upload_revocation (cfg : Config) (s : LoopState) (t : ℚ)
    (p : HttpOutcome) (body : List (String × JsonValue))
    (hcap : (loopIter cfg s t p (HttpOutcome.response 200 body)).captured = true)
    (hb : lookupField body "is_active" = some (JsonValue.bool false)) :
    (loopIter cfg s t p (HttpOutcome.response 200 body)).state.is_active = false := by
  obtain ⟨h1, h2⟩ := (captured_iff cfg s t p (HttpOutcome.response 200 body)).mp hcap
  rw [loopIter_capture cfg s t p (HttpOutcome.response 200 body) h1 h2]
  simp [uploadHandle, hb, truthy]

/-- Witness for C4: an active client that uploads a frame and is told
`is_active: false` is inactive at the end of the iteration. -/
theorem c4_witness :
    (loopIter sampleConfig activeState 1 HttpOutcome.exception
        (HttpOutcome.response 200 [("is_active", JsonValue.bool false)])).captured = true
    ∧ lookupField [("is_active", JsonValue.bool false)] "is_active"
        = some (JsonValue.bool false)
    ∧ (loopIter sampleConfig activeState 1 HttpOutcome.exception
        (HttpOutcome.response 200 [("is_active", JsonValue.bool false)])).state.is_active
        = false :=
  ⟨by norm_num [loopIter, pollPhase, activeState, sampleConfig, Config.frame_interval],
   rfl,
   c4_upload_revocation sampleConfig activeState 1 HttpOutcome.exception
     [("is_active", JsonValue.bool false)]
     (by norm_num [loopIter, pollPhase, activeState, sampleConfig, Config.frame_interval])
     rfl⟩

/-- Claim C5: over any run, consecutive capture times are at least
`frame_interval = 1/fps` apart; a capture only happens once at least
`frame_interval` has elapsed since `last_frame_time`, and
`last_frame_time` is re-anchored to the capture time for every capture
attempt, whatever the upload outcome `u` was. -/
theorem c5_frame_pacing (cfg : Config) (s : LoopState)
    (inputs : List (ℚ × HttpOutcome × HttpOutcome)) (t : ℚ) (p u : HttpOutcome)
    (hcap : (loopIter cfg s t p u).captured = true) :
    List.Chain' (fun a b => a + cfg.frame_interval ≤ b)
        (captureTimes (runTrace cfg s inputs))
    ∧ cfg.frame_interval ≤ t - s.last_frame_time
    ∧ (loopIter cfg s t p u).state.last_frame_time = t := by
  refine ⟨(captureTimes_chain cfg inputs s).1, ?_,
    (captured_spacing cfg s t p u hcap).2⟩
  have h := (captured_spacing cfg s t p u hcap).1
  linarith

/-- Witness for C5: an active client captures at time 1 (one second after
the anchor, far above the 1/12 s interval) and re-anchors to 1; the empty
run is trivially well spaced. -/
theorem c5_witness :
    (loopIter sampleConfig activeState 1 HttpOutcome.exception
        HttpOutcome.exception).captured = true
    ∧ (List.Chain' (fun a b => a + sampleConfig.frame_interval ≤ b)
          (captureTimes (runTrace sampleConfig activeState []))
      ∧ sampleConfig.frame_interval ≤ 1 - activeState.last_frame_time
      ∧ (loopIter sampleConfig activeState 1 HttpOutcome.exception
          HttpOutcome.exception).state.last_frame_time = 1) :=
  ⟨by norm_num [loopIter, pollPhase, activeState, sampleConfig, Config.frame_interval],
   c5_frame_pacing sampleConfig activeState [] 1 HttpOutcome.exception
     HttpOutcome.exception
     (by norm_num [loopIter, pollPhase, activeState, sampleConfig, Config.frame_interval])⟩

/-- Claim C6: when the upload raises a transport error, the iteration
logs an error, sleeps the fixed extra 1.0 s backoff, and leaves both the
activation state and the frame counter exactly as the poll phase left
them; the loop body stays a total function, i.e. the process does not
crash. -/
theorem c6_upload_error_backoff (cfg : Config) (s : LoopState) (t : ℚ)
    (p : HttpOutcome)
    (hcap : (loopIter cfg s t p HttpOutcome.exception).captured = true) :
    (loopIter cfg s t p HttpOutcome.exception).uploadErrorLogged = true
    ∧ (loopIter cfg s t p HttpOutcome.exception).sleep = 1
    ∧ (loopIter cfg s t p HttpOutcome.exception).state.is_active
        = (pollPhase cfg s t p).1.is_active
    ∧ (loopIter cfg s t p HttpOutcome.exception).state.frame_count
        = (pollPhase cfg s t p).1.frame_count := by
  obtain ⟨h1, h2⟩ := (captured_iff cfg s t p HttpOutcome.exception).mp hcap
  rw [loopIter_capture cfg s t p HttpOutcome.exception h1 h2]
  exact ⟨rfl, rfl, rfl, rfl⟩

/-- Witness for C6: an active client whose upload raises logs the error,
backs off 1.0 s, and stays active with an unchanged frame count. -/
theorem c6_witness :
    (loopIter sampleConfig activeState 1 HttpOutcome.exception
        HttpOutcome.exception).captured = true
    ∧ ((loopIter sampleConfig activeState 1 HttpOutcome.exception
          HttpOutcome.exception).uploadErrorLogged = true
      ∧ (loopIter sampleConfig activeState 1 HttpOutcome.exception
          HttpOutcome.exception).sleep = 1
      ∧ (loopIter sampleConfig activeState 1 HttpOutcome.exception
          HttpOutcome.exception).state.is_active
          = (pollPhase sampleConfig activeState 1 HttpOutcome.exception).1.is_active
      ∧ (loopIter sampleConfig activeState 1 HttpOutcome.exception
          HttpOutcome.exception).state.frame_count
          = (pollPhase sampleConfig activeState 1 HttpOutcome.exception).1.frame_count) :=
  ⟨by norm_num [loopIter, pollPhase, activeState, sampleConfig, Config.frame_interval],
   c6_upload_error_backoff sampleConfig activeState 1 HttpOutcome.exception
     (by norm_num [loopIter, pollPhase, activeState, sampleConfig, Config.frame_interval])⟩

/-- Claim C7: an upload answered 200 whose JSON has no `is_active` field
leaves the local activation state untouched by the upload handling. -/
theorem c7_no_field_keeps_activation (s : LoopState)
    (body : List (String × JsonValue))
    (hb : lookupField body "is_active" = none) :
    (uploadHandle s (HttpOutcome.response 200 body)).state.is_active
      = s.is_active := by
  simp [uploadHandle, hb]

/-- Witness for C7: a 200 upload response carrying only a status field
leaves the active client active. -/
theorem c7_witness :
    lookupField [("status", JsonValue.str "ok")] "is_active" = none
    ∧ (uploadHandle activeState
        (HttpOutcome.response 200 [("status", JsonValue.str "ok")])).state.is_active
        = activeState.is_active :=
  ⟨rfl, c7_no_field_keeps_activation activeState [("status", JsonValue.str "ok")] rfl⟩

/-- Claim C8: on every exit path after camera initialisation — keyboard
interrupt or any other unhandled exception — the camera handle is stopped
and the shutdown message is logged before the process terminates. -/
theorem c8_camera_released_on_exit (c : ExitCause) :
    (mainExit true c).cameraStopped = true
      ∧ (mainExit true c).shutdownLogged = true := by
  cases c <;> exact ⟨rfl, rfl⟩

/-- Claim C9: a 200 poll response without a `current_source` field leaves
`is_active` unchanged, yet still resets `last_status_check` to the
current time and re-evaluates `status_check_interval` from the (old)
activation state, exactly as a fully successful poll would. -/
theorem c9_poll_missing_field (cfg : Config) (s : LoopState) (t : ℚ)
    (body : List (String × JsonValue))
    (hb : lookupField body "current_source" = none) :
    (pollAttempt cfg s t (HttpOutcome.response 200 body)).is_active = s.is_active
    ∧ (pollAttempt cfg s t (HttpOutcome.response 200 body)).last_status_check = t
    ∧ (pollAttempt cfg s t (HttpOutcome.response 200 body)).status_check_interval
        = (if s.is_active then 3 else 1/2) := by
  simp [pollAttempt, hb]

/-- Witness for C9: a 200 poll response carrying only a status field
leaves the client inactive but advances the poll timer to time 7 and
re-evaluates the interval to 0.5. -/
theorem c9_witness :
    lookupField [("status", JsonValue.str "ok")] "current_source" = none
    ∧ ((pollAttempt sampleConfig idleState 7
          (HttpOutcome.response 200 [("status", JsonValue.str "ok")])).is_active
          = idleState.is_active
      ∧ (pollAttempt sampleConfig idleState 7
          (HttpOutcome.response 200 [("status", JsonValue.str "ok")])).last_status_check
          = 7
      ∧ (pollAttempt sampleConfig idleState 7
          (HttpOutcome.response 200 [("status", JsonValue.str "ok")])).status_check_interval
          = (if idleState.is_active then 3 else 1/2)) :=
  ⟨rfl, c9_poll_missing_field sampleConfig idleState 7
    [("status", JsonValue.str "ok")] rfl⟩

/-- Claim C10: the upload-response path can only deactivate, never
activate: a 200 upload response whose `is_active` field is truthy leaves
the activation state unchanged; and whenever an iteration turns an
inactive client active, it did issue a status poll, and that poll was a
200 response whose `current_source` field is exactly this camera's id. -/
theorem c10_only_poll_activates (cfg : Config) (s sU : LoopState) (t : ℚ)
    (p u : HttpOutcome) (bodyU : List (String × JsonValue)) (v : JsonValue)
    (hv : lookupField bodyU "is_active" = some v) (htr : truthy v = true)
    (hs : s.is_active = false)
    (hres : (loopIter cfg s t p u).state.is_active = true) :
    (uploadHandle sU (HttpOutcome.response 200 bodyU)).state.is_active
        = sU.is_active
    ∧ (loopIter cfg s t p u).polled = true
    ∧ ∃ body, p = HttpOutcome.response 200 body
        ∧ lookupField body "current_source" = some (JsonValue.str cfg.camera_id) := by
  have hact : (pollPhase cfg s t p).1.is_active = true := by
    by_contra hne
    have hinact : (pollPhase cfg s t p).1.is_active = false := by simpa using hne
    rw [loopIter_not_active cfg s t p u hinact] at hres
    rw [hinact] at hres
    exact absurd hres (by simp)
  refine ⟨by simp [uploadHandle, hv, htr], ?_, ?_⟩
  all_goals {
    by_cases hdue : s.status_check_interval ≤ t - s.last_status_check
    case pos =>
      have hpp : pollPhase cfg s t p = (pollAttempt cfg s t p, true) := by
        simp [pollPhase, hdue]
      first
      | rw [loopIter_polled, hpp]
      | exact pollAttempt_activates cfg s t p hs (by rw [hpp] at hact; exact hact)
    case neg =>
      exfalso
      have hpp : pollPhase cfg s t p = (s, false) := by simp [pollPhase, hdue]
      rw [hpp, hs] at hact
      exact absurd hact (by simp)
  }

/-- Witness for C10: a truthy `is_active: true` upload response leaves the
active client active, and the inactive client that became active at time
2 did so through a 200 poll naming `camera_0`. -/
theorem c10_witness :
    lookupField [("is_active", JsonValue.bool true)] "is_active"
        = some (JsonValue.bool true)
    ∧ truthy (JsonValue.bool true) = true
    ∧ idleState.is_active = false
    ∧ (loopIter sampleConfig idleState 2
        (HttpOutcome.response 200 [("current_source", JsonValue.str "camera_0")])
        (HttpOutcome.response 200 [("is_active", JsonValue.bool true)])).state.is_active
        = true
    ∧ ((uploadHandle activeState
          (HttpOutcome.response 200 [("is_active", JsonValue.bool true)])).state.is_active
          = activeState.is_active
      ∧ (loopIter sampleConfig idleState 2
          (HttpOutcome.response 200 [("current_source", JsonValue.str "camera_0")])
          (HttpOutcome.response 200 [("is_active", JsonValue.bool true)])).polled = true
      ∧ ∃ body, HttpOutcome.response 200 [("current_source", JsonValue.str "camera_0")]
            = HttpOutcome.response 200 body
          ∧ lookupField body "current_source"
            = some (JsonValue.str sampleConfig.camera_id)) :=
  ⟨rfl, rfl, rfl,
   by norm_num [loopIter, pollPhase, pollAttempt, uploadHandle, idleState,
     initialState, sampleConfig, Config.frame_interval, lookupField, pyEqStr, truthy],
   c10_only_poll_activates sampleConfig idleState activeState 2
     (HttpOutcome.response 200 [("current_source", JsonValue.str "camera_0")])
     (HttpOutcome.response 200 [("is_active", JsonValue.bool true)])
     [("is_active", JsonValue.bool true)] (JsonValue.bool true)
     rfl rfl rfl
     (by norm_num [loopIter, pollPhase, pollAttempt, uploadHandle, idleState,
       initialState, sampleConfig, Config.frame_interval, lookupField, pyEqStr, truthy])⟩

end RaspberryCamera
